import Mathlib

/-!
Shallow embedding of `http_server.py`, a minimal HTTP/1.1 static-file
server, together with theorems settling the specification's claims.

Modelling conventions:
* Python `str` and `bytes` values are both modelled as Lean `String`
  (sequences of characters; every operation used by the program —
  concatenation, `"\r\n".join`, `split(' ')`, slicing — acts on them
  identically).
* Python exceptions used for control flow become an error type `HErr`
  returned through `Except`:
  `NameError` (404 sentinel) is `HErr.notFound`,
  `NotImplementedError` (405 sentinel) is `HErr.methodNotSupported`,
  the `AttributeError` raised by `None.encode()` when
  `mimetypes.guess_type` returns `None` is `HErr.typeFault`, and the
  `IndexError` of an out-of-range subscript is `HErr.indexError`.
* The filesystem under the document root is an explicit parameter
  `fs : FileSystem` mapping a joined query path to the entry found
  there (a regular file with its byte contents, or a directory with
  its entry names in the order `os.listdir` enumerates them).
  The constant prefix `os.path.dirname(os.path.realpath(__file__))`
  is elided; query paths are keyed from the `webroot` component on.
* `mimetypes.guess_type(query)[0]` is an explicit parameter
  `guess : String → Option String`; the concrete `mimetypes_guess`
  below instantiates it with the standard extension table.
-/

namespace HttpServer

/-- A filesystem entry under the document root: a regular file with its
exact byte contents, or a directory with its entry names in enumeration
order. -/
inductive FSEntry : Type
| file (content : String) : FSEntry
| dir (listing : List String) : FSEntry
deriving DecidableEq

/-- The read-only filesystem collaborator: maps a resolved query path to
the entry there, `none` when no entry exists. -/
abbrev FileSystem : Type := String → Option FSEntry

/-- Error conditions, modelling the Python exceptions used by the code. -/
inductive HErr : Type
| notFound : HErr
| methodNotSupported : HErr
| typeFault : HErr
| indexError : HErr
deriving DecidableEq

/-- Models Python `request.split(' ')`: split at every single space
character, keeping empty fragments. Stated on the character list (via
`List.splitOnP`) so that it evaluates by kernel reduction; by
`String.split_of_valid` this is exactly `String.split (· == ' ')`. -/
def split_sp (request : String) : List String :=
  (request.data.splitOnP (fun c => c == ' ')).map String.mk

/-- Models Python `b"\r\n".join(segments)`: the segments interleaved
with the CRLF separator. -/
def crlf_join : List String → String
| [] => ""
| [x] => x
| x :: xs => x ++ "\r\n" ++ crlf_join xs

/-- Embeds `response_ok(body, mimetype)` from `http_server.py`: the
four segments `[b"HTTP/1.1 200 OK", b"Content-Type: " + mimetype,
b"", body]` joined with `b"\r\n"`. -/
def response_ok (body : String) (mimetype : String) : String :=
  crlf_join ["HTTP/1.1 200 OK", "Content-Type: " ++ mimetype, "", body]

/-- Embeds `response_method_not_allowed()` from `http_server.py`. -/
def response_method_not_allowed : String :=
  "HTTP/1.1 405 Method Not Allowed\r\n"

/-- Embeds `response_not_found()` from `http_server.py`. -/
def response_not_found : String :=
  "HTTP/1.1 404 Not Found\r\n"

/-- Embeds `parse_request(request)` from `http_server.py`: the local
list `requested = request.split(' ')` is matched; reading
`requested[0]` would raise `IndexError` on an empty list (unreachable:
a split is never empty); if `requested[0] == "POST"` raise
`NotImplementedError`; otherwise return `requested[1]` (`IndexError`
when there is no second token). -/
def parse_request (request : String) : Except HErr String :=
  match split_sp request with
  | [] => Except.error HErr.indexError
  | request_method :: rest =>
    if request_method = "POST" then Except.error HErr.methodNotSupported
    else
      match rest with
      | [] => Except.error HErr.indexError
      | p :: _ => Except.ok p

/-- Models `os.path.join(current_dir, "webroot", path[1:])` from
`response_path`: the constant `current_dir` prefix is elided and
`path[1:]` (the path with its first character removed) is joined, as a
relative segment, under `webroot/`. -/
def query_of (path : String) : String :=
  "webroot/" ++ String.mk path.data.tail

/-- Models the Python standard library's extension-to-media-type table
as consulted by `mimetypes.guess_type` (common entries). -/
def mime_table : List (String × String) :=
  [("html", "text/html"), ("htm", "text/html"), ("txt", "text/plain"),
   ("png", "image/png"), ("jpg", "image/jpeg"), ("jpeg", "image/jpeg"),
   ("gif", "image/gif"), ("css", "text/css"), ("js", "text/javascript"),
   ("json", "application/json"), ("pdf", "application/pdf"),
   ("py", "text/x-python")]

/-- The extension of a path: the text after the last `.`, `none` when
the path contains no dot. -/
def file_extension (s : String) : Option String :=
  let parts := s.data.splitOnP (fun c => c == '.')
  if parts.length ≤ 1 then none else parts.getLast?.map String.mk

/-- Models `mimetypes.guess_type(query)[0]`: look the extension up in
the standard table, `none` when it has no mapping. -/
def mimetypes_guess (s : String) : Option String :=
  match file_extension s with
  | none => none
  | some ext => (mime_table.find? (fun e => e.1 == ext)).map Prod.snd

/-- Embeds `response_path(path)` from `http_server.py`: join the query
path (`query_of path`, the local `query`), raise `NameError` if
nothing exists there; for a directory return the
`"\r\n".join(os.listdir(query))` listing with mimetype `text/plain`;
for a file guess the mimetype (`None.encode()` raises when the guess
fails) and return the file's byte contents with it. -/
def response_path (fs : FileSystem) (guess : String → Option String)
    (path : String) : Except HErr (String × String) :=
  match fs (query_of path) with
  | none => Except.error HErr.notFound
  | some (FSEntry.dir listing) =>
    Except.ok (crlf_join listing, "text/plain")
  | some (FSEntry.file content) =>
    match guess (query_of path) with
    | none => Except.error HErr.typeFault
    | some mime_type => Except.ok (content, mime_type)

/-- Embeds `handle_request(request)` from `http_server.py`. Faithful to the
code's control flow: `parse_request` is called OUTSIDE the
`try`/`except` block, so any error it raises propagates out of the
handler; only errors raised inside the `try` block (by
`response_path`) are mapped — `NameError` to the 404 response and
`NotImplementedError` to the 405 response; anything else propagates. -/
def handle_request (fs : FileSystem) (guess : String → Option String)
    (request : String) : Except HErr String :=
  match parse_request request with
  | Except.error e => Except.error e
  | Except.ok path =>
    match response_path fs guess path with
    | Except.ok (content, mime_type) =>
      Except.ok (response_ok content mime_type)
    | Except.error HErr.notFound => Except.ok response_not_found
    | Except.error HErr.methodNotSupported =>
      Except.ok response_method_not_allowed
    | Except.error e => Except.error e

/-- An empty document root, used to instantiate theorems. -/
def fs_empty : FileSystem := fun _ => none

/-- A small concrete document root, used to instantiate theorems. -/
def fs_demo : FileSystem := fun q =>
  if q = "webroot/" then some (FSEntry.dir ["a.html", "b.png"])
  else if q = "webroot/a.html" then some (FSEntry.file "<html>")
  else if q = "webroot/a.xyz" then some (FSEntry.file "mystery")
  else none

/-- String concatenation is associative (proved by passing to the
underlying character lists). -/
theorem str_assoc : ∀ a b c : String, a ++ b ++ c = a ++ (b ++ c)
| ⟨a⟩, ⟨b⟩, ⟨c⟩ => congrArg String.mk (List.append_assoc a b c)

/-- Framing identity for `response_ok`: the join collapses to a status
line, the Content-Type header, one blank-line separator, then the
body. -/
theorem response_ok_eq (body mime_type : String) :
    response_ok body mime_type
      = "HTTP/1.1 200 OK\r\nContent-Type: " ++ mime_type ++ "\r\n\r\n" ++ body := by
  have e1 : response_ok body mime_type
      = "HTTP/1.1 200 OK\r\n"
        ++ (("Content-Type: " ++ mime_type ++ "\r\n") ++ ("\r\n" ++ body)) := rfl
  have e2 : "HTTP/1.1 200 OK\r\nContent-Type: " ++ mime_type ++ "\r\n\r\n" ++ body
      = (("HTTP/1.1 200 OK\r\n" ++ "Content-Type: ") ++ mime_type
          ++ ("\r\n" ++ "\r\n")) ++ body := rfl
  rw [e1, e2]
  simp only [str_assoc]

/-- Splitting at spaces peels off a leading space-free token. -/
theorem split_sp_token_append (m rest : String) (hm : ∀ c ∈ m.data, ¬c = ' ') :
    split_sp (m ++ " " ++ rest) = m :: split_sp rest := by
  have hF : ∀ c ∈ m.data, ¬((c == ' ') = true) := by
    intro c hc
    simpa using hm c hc
  have hd : (m ++ " " ++ rest).data = m.data ++ (' ' :: rest.data) := by
    rw [String.data_append, String.data_append, List.append_assoc]
    rfl
  unfold split_sp
  rw [hd, List.splitOnP_first _ _ hF ' ' rfl]
  rfl

/-- Splitting a request of shape `METHOD SP PATH SP rest` at spaces
yields the method token, the path token, then the split of the rest. -/
theorem split_sp_request (m p rest : String)
    (hm : ∀ c ∈ m.data, ¬c = ' ') (hp : ∀ c ∈ p.data, ¬c = ' ') :
    split_sp (m ++ " " ++ p ++ " " ++ rest) = m :: p :: split_sp rest := by
  have ha : m ++ " " ++ p ++ " " ++ rest = m ++ " " ++ (p ++ " " ++ rest) := by
    simp only [str_assoc]
  rw [ha, split_sp_token_append m _ hm, split_sp_token_append p rest hp]

/-- On a request of shape `METHOD SP PATH SP rest` the parser checks
the method token against POST and otherwise returns the path token. -/
theorem parse_request_shape (m p rest : String)
    (hm : ∀ c ∈ m.data, ¬c = ' ') (hp : ∀ c ∈ p.data, ¬c = ' ') :
    parse_request (m ++ " " ++ p ++ " " ++ rest)
      = if m = "POST" then Except.error HErr.methodNotSupported
        else Except.ok p := by
  unfold parse_request
  rw [split_sp_request m p rest hm hp]

/-- C1: the claim says a POST request makes the handler emit the 405
response bytes. In the code `parse_request` is called OUTSIDE the
`try`/`except` block of `handle_request`, so the `NotImplementedError`
it raises for POST propagates out of the handler and no response is
produced; the `except NotImplementedError` arm mapping to 405 is dead
code. This theorem evaluates the handler at the spec's own scenario
`POST /a.html HTTP/1.1\r\n\r\n` for every filesystem and every media
type guesser: the result is the uncaught `MethodNotSupported` fault,
never a 405 (nor any other) response. -/
theorem C1_post_fault_propagates (fs : FileSystem)
    (guess : String → Option String) :
    handle_request fs guess "POST /a.html HTTP/1.1\r\n\r\n"
      = Except.error HErr.methodNotSupported
    ∧ ∀ r : String,
        ¬handle_request fs guess "POST /a.html HTTP/1.1\r\n\r\n"
          = Except.ok r := by
  refine ⟨rfl, ?_⟩
  intro r h
  rw [show handle_request fs guess "POST /a.html HTTP/1.1\r\n\r\n"
        = Except.error HErr.methodNotSupported from rfl] at h
  exact Except.noConfusion h

/-- Witness for C1: the fault at a concrete filesystem and guesser. -/
theorem C1_post_fault_propagates_witness :
    handle_request fs_empty mimetypes_guess "POST /a.html HTTP/1.1\r\n\r\n"
      = Except.error HErr.methodNotSupported :=
  (C1_post_fault_propagates fs_empty mimetypes_guess).1

/-- C2: for every body and media type, `response_ok` produces exactly
the status line, one Content-Type header, one blank-line separator,
then the body, joined with CRLF; in particular the spec's example
instance holds byte for byte. -/
theorem C2_response_ok_framing (body mime_type : String) :
    response_ok body mime_type
      = "HTTP/1.1 200 OK\r\nContent-Type: " ++ mime_type ++ "\r\n\r\n" ++ body
    ∧ response_ok "<html>..." "text/html"
      = "HTTP/1.1 200 OK\r\nContent-Type: text/html\r\n\r\n<html>..." :=
  ⟨response_ok_eq body mime_type, rfl⟩

/-- C3: when the query path made from the request path has no
filesystem entry, `response_path` fails with the NotFound condition,
and on any request parsing to that path the handler returns exactly
the bytes of `response_not_found`, which are
`HTTP/1.1 404 Not Found\r\n` with no further headers and no body. -/
theorem C3_not_found (fs : FileSystem) (guess : String → Option String)
    (path : String) (h : fs (query_of path) = none) :
    response_path fs guess path = Except.error HErr.notFound
    ∧ ∀ request : String, parse_request request = Except.ok path →
        handle_request fs guess request = Except.ok "HTTP/1.1 404 Not Found\r\n" := by
  have h1 : response_path fs guess path = Except.error HErr.notFound := by
    unfold response_path
    rw [h]
  refine ⟨h1, ?_⟩
  intro request hreq
  unfold handle_request
  simp only [hreq, h1]
  rfl

/-- Witness for C3: the spec's scenario `GET /missing.txt` against an
empty document root produces exactly the 404 bytes. -/
theorem C3_not_found_witness :
    handle_request fs_empty mimetypes_guess "GET /missing.txt HTTP/1.1\r\n\r\n"
      = Except.ok "HTTP/1.1 404 Not Found\r\n" :=
  (C3_not_found fs_empty mimetypes_guess "/missing.txt" rfl).2
    "GET /missing.txt HTTP/1.1\r\n\r\n" rfl

/-- C4 counterexample: the claim says the parser outputs the pair
(method, path). In the code `parse_request` returns `requested[1]`
alone — the path token only, as its own docstring says. Concretely,
parsing `GET /x HTTP/1.1\r\n\r\n` yields the bare token `/x` (not a
pair), and the parse results of a GET and a PUT request for the same
path are identical, so the output cannot contain the method. -/
theorem C4_pair_output_counterexample :
    parse_request "GET /x HTTP/1.1\r\n\r\n" = Except.ok "/x"
    ∧ parse_request "PUT /x HTTP/1.1\r\n\r\n"
        = parse_request "GET /x HTTP/1.1\r\n\r\n" :=
  ⟨rfl, rfl⟩

/-- C4 (amended): for every request whose method token is POST,
parsing fails with the MethodNotSupported condition; for every request
of shape `METHOD SP PATH SP rest` whose method token is not POST, the
parser outputs the path token alone — e.g. parsing
`GET /x HTTP/1.1...` yields `/x`. -/
theorem C4_parse_request_amended :
    (∀ request : String, (split_sp request).head? = some "POST" →
        parse_request request = Except.error HErr.methodNotSupported)
    ∧ ∀ m p rest : String, (∀ c ∈ m.data, ¬c = ' ') →
        (∀ c ∈ p.data, ¬c = ' ') → ¬m = "POST" →
        parse_request (m ++ " " ++ p ++ " " ++ rest) = Except.ok p := by
  constructor
  · intro request hhead
    unfold parse_request
    cases hsplit : split_sp request with
    | nil =>
      rw [hsplit] at hhead
      exact absurd hhead (by simp)
    | cons a rest =>
      rw [hsplit] at hhead
      have ha : a = "POST" := by simpa using hhead
      rw [ha]
      simp
  · intro m p rest hm hp hne
    rw [parse_request_shape m p rest hm hp, if_neg hne]

/-- Witness for C4 (amended): a POST request fails with
MethodNotSupported; a GET request for `/x` parses to the token `/x`. -/
theorem C4_parse_request_amended_witness :
    parse_request "POST /x HTTP/1.1\r\n\r\n"
        = Except.error HErr.methodNotSupported
    ∧ parse_request ("GET" ++ " " ++ "/x" ++ " " ++ "HTTP/1.1\r\n\r\n")
        = Except.ok "/x" :=
  ⟨C4_parse_request_amended.1 "POST /x HTTP/1.1\r\n\r\n" rfl,
   C4_parse_request_amended.2 "GET" "/x" "HTTP/1.1\r\n\r\n"
     (by decide) (by decide) (by decide)⟩

/-- C5: when the query path resolves to a regular file and the
standard extension-to-media-type mapping (modelled by
`mimetypes_guess`) yields a media type, `response_path` returns the
file's exact byte contents paired with that media type. -/
theorem C5_file_contents_and_media_type (fs : FileSystem)
    (path content mt : String)
    (hf : fs (query_of path) = some (FSEntry.file content))
    (hg : mimetypes_guess (query_of path) = some mt) :
    response_path fs mimetypes_guess path = Except.ok (content, mt) := by
  unfold response_path
  rw [hf, hg]

/-- Witness for C5: resolving `/a.html` against the demo root yields
the file's exact contents with media type `text/html` (the standard
mapping of the `.html` extension). -/
theorem C5_file_contents_and_media_type_witness :
    response_path fs_demo mimetypes_guess "/a.html"
      = Except.ok ("<html>", "text/html")
    ∧ mimetypes_guess "x.png" = some "image/png" :=
  ⟨C5_file_contents_and_media_type fs_demo "/a.html" "<html>" "text/html"
     rfl rfl, rfl⟩

/-- C6: when the query path resolves to a directory, `response_path`
returns media type `text/plain` and a body equal to the CRLF-joined
entry names in the order the filesystem enumeration returns them (the
`listing` field of the entry); equality with the joined enumeration
subsumes the set-equality invariant. -/
theorem C6_directory_listing (fs : FileSystem)
    (guess : String → Option String) (path : String) (listing : List String)
    (hd : fs (query_of path) = some (FSEntry.dir listing)) :
    response_path fs guess path
      = Except.ok (crlf_join listing, "text/plain") := by
  unfold response_path
  rw [hd]

/-- Witness for C6: resolving `/` against the demo root lists
`a.html` and `b.png` joined by CRLF, with media type `text/plain`. -/
theorem C6_directory_listing_witness :
    response_path fs_demo mimetypes_guess "/"
      = Except.ok (crlf_join ["a.html", "b.png"], "text/plain")
    ∧ crlf_join ["a.html", "b.png"] = "a.html\r\nb.png" :=
  ⟨C6_directory_listing fs_demo mimetypes_guess "/" ["a.html", "b.png"] rfl,
   rfl⟩

/-- C7: when the query path resolves to a regular file whose media
type cannot be guessed, `response_path` fails with the type fault
(the AttributeError of `None.encode()`), a condition distinct from
NotFound and from MethodNotSupported; the handler's error mapping does
not catch it, so on any request parsing to that path the fault
propagates out of `handle_request` instead of producing a response. -/
theorem C7_unguessable_fault (fs : FileSystem)
    (guess : String → Option String) (path content : String)
    (hf : fs (query_of path) = some (FSEntry.file content))
    (hg : guess (query_of path) = none) :
    response_path fs guess path = Except.error HErr.typeFault
    ∧ ¬HErr.typeFault = HErr.notFound
    ∧ ¬HErr.typeFault = HErr.methodNotSupported
    ∧ ∀ request : String, parse_request request = Except.ok path →
        handle_request fs guess request = Except.error HErr.typeFault := by
  have h1 : response_path fs guess path = Except.error HErr.typeFault := by
    unfold response_path
    rw [hf, hg]
  refine ⟨h1, by decide, by decide, ?_⟩
  intro request hreq
  unfold handle_request
  simp only [hreq, h1]

/-- Witness for C7: a request for the extension-less-mapping file
`/a.xyz` of the demo root makes the fault escape the handler. -/
theorem C7_unguessable_fault_witness :
    handle_request fs_demo mimetypes_guess "GET /a.xyz HTTP/1.1\r\n\r\n"
      = Except.error HErr.typeFault :=
  (C7_unguessable_fault fs_demo mimetypes_guess "/a.xyz" "mystery"
     rfl rfl).2.2.2 "GET /a.xyz HTTP/1.1\r\n\r\n" rfl

/-- C8: the handler is deterministic — two runs on the same request
against the same filesystem and guesser produce the same result. -/
theorem C8_deterministic (fs : FileSystem) (guess : String → Option String)
    (request : String) (r₁ r₂ : Except HErr String)
    (h₁ : handle_request fs guess request = r₁)
    (h₂ : handle_request fs guess request = r₂) : r₁ = r₂ :=
  h₁.symm.trans h₂

/-- Witness for C8: two runs on `GET /a.html` against the demo root
both produce the same 200 response. -/
theorem C8_deterministic_witness :
    Except.ok (response_ok "<html>" "text/html")
      = (Except.ok (response_ok "<html>" "text/html") : Except HErr String) :=
  C8_deterministic fs_demo mimetypes_guess "GET /a.html HTTP/1.1\r\n\r\n"
    _ _ rfl rfl

/-- C9: noninterference — two requests of shape
`METHOD SP PATH SP rest` that agree on the method token and the path
token produce identical handler outcomes for every filesystem and
guesser: the version, headers and body in `rest` never influence the
result. -/
theorem C9_noninterference (fs : FileSystem) (guess : String → Option String)
    (m p rest₁ rest₂ : String)
    (hm : ∀ c ∈ m.data, ¬c = ' ') (hp : ∀ c ∈ p.data, ¬c = ' ') :
    handle_request fs guess (m ++ " " ++ p ++ " " ++ rest₁)
      = handle_request fs guess (m ++ " " ++ p ++ " " ++ rest₂) := by
  unfold handle_request
  rw [parse_request_shape m p rest₁ hm hp, parse_request_shape m p rest₂ hm hp]

/-- Witness for C9: two GET requests for `/a.html` with different
header blocks get byte-identical responses. -/
theorem C9_noninterference_witness :
    handle_request fs_demo mimetypes_guess
        ("GET" ++ " " ++ "/a.html" ++ " " ++ "HTTP/1.1\r\nHost: a\r\n\r\n")
      = handle_request fs_demo mimetypes_guess
        ("GET" ++ " " ++ "/a.html" ++ " " ++ "HTTP/1.1\r\nUser-Agent: b\r\n\r\n") :=
  C9_noninterference fs_demo mimetypes_guess "GET" "/a.html"
    "HTTP/1.1\r\nHost: a\r\n\r\n" "HTTP/1.1\r\nUser-Agent: b\r\n\r\n"
    (by decide) (by decide)

/-- C10: whenever the handler returns normally, the returned bytes are
exactly one of the three response shapes — a 200 framed by
`response_ok`, the 404 bytes, or the 405 bytes — and in every case
they begin with the bytes `HTTP/1.1 `. -/
theorem C10_response_shape (fs : FileSystem) (guess : String → Option String)
    (request resp : String)
    (h : handle_request fs guess request = Except.ok resp) :
    ((∃ body mt, resp = response_ok body mt)
      ∨ resp = response_not_found ∨ resp = response_method_not_allowed)
    ∧ ∃ t, resp = "HTTP/1.1 " ++ t := by
  unfold handle_request at h
  cases hpr : parse_request request with
  | error e =>
    rw [hpr] at h
    exact Except.noConfusion h
  | ok path =>
    simp only [hpr] at h
    cases hrp : response_path fs guess path with
    | ok cm =>
      obtain ⟨c, mt⟩ := cm
      simp only [hrp] at h
      have hr : resp = response_ok c mt := by
        injection h with h
        exact h.symm
      refine ⟨Or.inl ⟨c, mt, hr⟩,
        ⟨"200 OK\r\nContent-Type: " ++ (mt ++ ("\r\n\r\n" ++ c)), ?_⟩⟩
      rw [hr, response_ok_eq,
        show ("HTTP/1.1 200 OK\r\nContent-Type: " : String)
          = "HTTP/1.1 " ++ "200 OK\r\nContent-Type: " from rfl]
      simp only [str_assoc]
    | error e =>
      cases e with
      | notFound =>
        simp only [hrp] at h
        have hr : resp = response_not_found := by
          injection h with h
          exact h.symm
        exact ⟨Or.inr (Or.inl hr), ⟨"404 Not Found\r\n", by rw [hr]; rfl⟩⟩
      | methodNotSupported =>
        simp only [hrp] at h
        have hr : resp = response_method_not_allowed := by
          injection h with h
          exact h.symm
        exact ⟨Or.inr (Or.inr hr),
          ⟨"405 Method Not Allowed\r\n", by rw [hr]; rfl⟩⟩
      | typeFault =>
        simp only [hrp] at h
        exact Except.noConfusion h
      | indexError =>
        simp only [hrp] at h
        exact Except.noConfusion h

/-- Witness for C10: the handler's 200 response for `GET /a.html`
against the demo root has one of the three shapes and begins with
`HTTP/1.1 `. -/
theorem C10_response_shape_witness :
    ((∃ body mt, response_ok "<html>" "text/html" = response_ok body mt)
      ∨ response_ok "<html>" "text/html" = response_not_found
      ∨ response_ok "<html>" "text/html" = response_method_not_allowed)
    ∧ ∃ t, response_ok "<html>" "text/html" = "HTTP/1.1 " ++ t :=
  C10_response_shape fs_demo mimetypes_guess "GET /a.html HTTP/1.1\r\n\r\n"
    (response_ok "<html>" "text/html") rfl

end HttpServer
